import Mathlib

/-!
Verification of the authentication and authorization subsystem of the
employee-onboarding API (`backend/app`).  Pure functions are embedded
directly; route handlers become functions from their inputs (headers,
records, the in-memory rate-limit store, the current unix time) to an
`Except`-style outcome together with the updated store.  HTTP failures are
values of `HTTPError` carrying the status code, detail string and extra
headers that the Python code passes to `HTTPException`.
-/

namespace Miq

/-- A JWT claim set as used by this service.  `service` is `none` when the
`service` key is absent from the payload (the code reads it with
the payload get with default False). -/
structure Claims where
  sub : String
  exp : Int
  iat : Int
  iss : String
  service : Option Bool
deriving Repr, DecidableEq

/-- A signed token: the claim set together with the key it was signed with.
The signature of an HMAC-signed JWT is a function of (payload, secret), so a
token verifies under exactly the secret it was signed with; we record that
secret in place of the opaque signature bytes. -/
structure Token where
  claims : Claims
  sig : String
deriving Repr, DecidableEq

/-- Error taxonomy of the token codec (`jwt.ExpiredSignatureError` and the
other `jwt.InvalidTokenError` subclasses). -/
inductive JwtError where
  | expiredSignature
  | invalidToken
deriving Repr, DecidableEq

/-- Modelled from the spec: Token Codec `encode` (§4.2), standing for the
external `jwt.encode(payload, secret, algorithm)` call — serializes the
claims and signs them with the secret. -/
def jwtEncode (payload : Claims) (secret : String) : Token :=
  ⟨payload, secret⟩

/-- Modelled from the spec: Token Codec `decode` (§4.2), standing for the
external `jwt.decode(token, secret, algorithms, verify_signature)` call —
verifies the signature first, then checks `exp` against the current time. -/
def jwtDecode (token : Token) (secret : String) (now : Int) : Except JwtError Claims :=
  if token.sig ≠ secret then .error .invalidToken
  else if token.claims.exp ≤ now then .error .expiredSignature
  else .ok token.claims

/-- The data `HTTPException(status_code, detail, headers)` carries. -/
structure HTTPError where
  status : Nat
  detail : String
  headers : List (String × String)
deriving Repr, DecidableEq

/-- An employee record as stored in the `employees` table. -/
structure Employee where
  id : String
  username : String
  password_hash : String
  first_name : String
  last_name : String
  job_title : String
  department : String
  email : String
  phone : Option String
  role : String
  salary : Option Int
deriving Repr, DecidableEq

/-- Lookup `select * from employees where username = u`, taking the first row if
any (`result.data[0] if result.data else None`). -/
def findUserByUsername (db : List Employee) (username : String) : Option Employee :=
  db.find? (fun e => e.username == username)

/-- The 401 raised by the modelled `get_current_user` on any validation
failure: generic detail, `WWW-Authenticate: Bearer` challenge. -/
def credentialsError : HTTPError :=
  ⟨401, "Could not validate credentials", [("WWW-Authenticate", "Bearer")]⟩

/-- Modelled from the spec: `get_current_user` lives in `app/auth/auth.py`,
which is imported by the routers but absent from the sources.  Per §4.3 it
decodes the bearer token with the configured secret, looks the subject up in
the employee store, and rejects with a 401 challenge on decode failure or
lookup miss. -/
def get_current_user (db : List Employee) (secret : String) (now : Int)
    (token : Token) : Except HTTPError Employee :=
  match jwtDecode token secret now with
  | .error _ => .error credentialsError
  | .ok payload =>
    match findUserByUsername db payload.sub with
    | none => .error credentialsError
    | some user => .ok user

/-- The `Authorization` header of a request: absent (or empty — both falsy
in the Python guards), present but not of the `Bearer <token>` shape, or a
well-formed `Bearer` header carrying a token. -/
inductive AuthHeader where
  | absent
  | malformed (value : String)
  | bearer (token : Token)
deriving Repr, DecidableEq

/-- Embeds `get_optional_current_user` (`app/routers/employees.py`): absent header
or non-Bearer shape yields `None`; a Bearer token is validated via
`get_current_user`, every raised `HTTPException`/`Exception` being swallowed
into `None`. -/
def get_optional_current_user (db : List Employee) (secret : String) (now : Int)
    (authorization : AuthHeader) : Option Employee :=
  match authorization with
  | .absent => none
  | .malformed _ => none
  | .bearer token =>
    match get_current_user db secret now token with
    | .ok user => some user
    | .error _ => none

/-- The 401 raised by `get_required_current_user` when the header is missing
or not of Bearer type. -/
def notAuthenticatedError : HTTPError :=
  ⟨401, "Not authenticated", [("WWW-Authenticate", "Bearer")]⟩

/-- Embeds `get_required_current_user` (`app/routers/employees.py`): missing or
non-Bearer header raises 401 with a Bearer challenge; otherwise the token is
validated via `get_current_user`, whose `HTTPException`s are re-raised. -/
def get_required_current_user (db : List Employee) (secret : String) (now : Int)
    (authorization : AuthHeader) : Except HTTPError Employee :=
  match authorization with
  | .absent => .error notAuthenticatedError
  | .malformed _ => .error notAuthenticatedError
  | .bearer token => get_current_user db secret now token

/-- Embeds `validate_service_token` (`app/routers/service_auth.py`): decode with
signature verification; reject (return `None`) when the payload lacks a
truthy `service` claim; `ExpiredSignatureError` and `InvalidTokenError` are
both caught and turned into `None`. -/
def validate_service_token (secret : String) (now : Int) (token : Token) :
    Option Claims :=
  match jwtDecode token secret now with
  | .error _ => none
  | .ok payload =>
    if payload.service.getD false then some payload else none

/-! ### Rate limiting (`app/routers/service_auth.py`) -/

/-- Constant `RATE_LIMIT_MAX = 100` — requests per minute. -/
def RATE_LIMIT_MAX : Nat := 100

/-- Constant `RATE_LIMIT_WINDOW = 60` — seconds. -/
def RATE_LIMIT_WINDOW : Int := 60

/-- One entry of `rate_limit_store`: `count` and `reset_at`. -/
structure RateEntry where
  count : Nat
  reset_at : Int
deriving Repr, DecidableEq

/-- The in-memory `rate_limit_store` dict, keyed by the service name and client ip. -/
def RateStore : Type := String → Option RateEntry

/-- The store at process start: empty. -/
def emptyRateStore : RateStore := fun _ => none

/-- Assignment of an entry to a key of `rate_limit_store`. -/
def RateStore.update (st : RateStore) (key : String) (entry : RateEntry) : RateStore :=
  fun k => if k = key then some entry else st k

/-- Key format: the service name, a colon, the client ip. -/
def rateKey (service_name client_ip : String) : String :=
  service_name ++ ":" ++ client_ip

/-- Embeds `_check_rate_limit(service_name, client_ip)` at time `now`, acting on
store `st`: a fresh key is entered with count 1 and allowed; a key whose
window has passed (`now >= reset_at`) is reset to count 1 and allowed;
otherwise the count is incremented and the request is allowed iff the new
count is `<= RATE_LIMIT_MAX`. -/
def check_rate_limit (st : RateStore) (service_name client_ip : String) (now : Int) :
    Bool × RateStore :=
  let key := rateKey service_name client_ip
  match st key with
  | none => (true, st.update key ⟨1, now + RATE_LIMIT_WINDOW⟩)
  | some entry =>
    if entry.reset_at ≤ now then
      (true, st.update key ⟨1, now + RATE_LIMIT_WINDOW⟩)
    else
      (decide (entry.count + 1 ≤ RATE_LIMIT_MAX), st.update key ⟨entry.count + 1, entry.reset_at⟩)

/-- A sequence of calls to `_check_rate_limit` for the same
`(service, origin)` pair, one per listed timestamp, threading the store and
collecting the allow/deny verdicts. -/
def runRequests (st : RateStore) (service_name client_ip : String) :
    List Int → List Bool
  | [] => []
  | t :: ts =>
    let r := check_rate_limit st service_name client_ip t
    r.1 :: runRequests r.2 service_name client_ip ts

/-! ### Service API-key authentication (`get_service_from_api_key`) -/

/-- The 401 for a missing `X-Service-API-Key` header. -/
def missingApiKeyError : HTTPError :=
  ⟨401, "Missing service API key", [("WWW-Authenticate", "APIKey")]⟩

/-- The 429 raised when `_check_rate_limit` denies the request. -/
def rateLimitedError : HTTPError :=
  ⟨429, "Rate limit exceeded", [("Retry-After", "60")]⟩

/-- The 403 for an API key matching no registry entry. -/
def invalidApiKeyError : HTTPError :=
  ⟨403, "Invalid API key", []⟩

/-- Python truthiness of a configured key (`if valid_key and ...`): `None`
and the empty string are falsy. -/
def keyTruthy : Option String → Bool
  | none => false
  | some s => s != ""

/-- The `for service_name, valid_key in SERVICE_API_KEYS.items()` loop of
`get_service_from_api_key`: skip entries whose configured key is falsy;
on a `secrets.compare_digest` match, run the rate limiter when a request
object (here: a client host) is available, returning the service name if
allowed and 429 if not; with no request object the name is returned without
rate limiting; if the loop ends without a match, 403. -/
def scanServiceKeys (keys : List (String × Option String)) (api_key : String)
    (client_host : Option String) (st : RateStore) (now : Int) :
    Except HTTPError String × RateStore :=
  match keys with
  | [] => (.error invalidApiKeyError, st)
  | (service_name, valid_key) :: rest =>
    if keyTruthy valid_key && (api_key == valid_key.getD "") then
      match client_host with
      | some host =>
        let r := check_rate_limit st service_name host now
        if r.1 then (.ok service_name, r.2)
        else (.error rateLimitedError, r.2)
      | none => (.ok service_name, st)
    else
      scanServiceKeys rest api_key client_host st now

/-- Embeds `get_service_from_api_key(api_key, request)`: a missing (or empty —
falsy) header yields 401 before any registry scan; otherwise the registry is
scanned as above. -/
def get_service_from_api_key (keys : List (String × Option String))
    (api_key : Option String) (client_host : Option String) (st : RateStore)
    (now : Int) : Except HTTPError String × RateStore :=
  match api_key with
  | none => (.error missingApiKeyError, st)
  | some k =>
    if k = "" then (.error missingApiKeyError, st)
    else scanServiceKeys keys k client_host st now

/-! ### Login (`app/routers/auth.py`) -/

/-- Modelled from the spec: Credential Hasher (§4.1), standing for
`get_password_hash` in the absent `app/auth/auth.py`.  The model is a
deterministic stand-in for the salted one-way hash; what the theorems use is
only that `verify(P, hash(P))` holds and `verify(P1, hash(P2))` fails for
`P1 ≠ P2`. -/
def get_password_hash (password : String) : String :=
  "hashed$" ++ password

/-- Modelled from the spec: Credential Hasher `verify` (§4.1), standing for
`verify_password` in the absent `app/auth/auth.py`: recompute and compare,
returning a boolean and never raising. -/
def verify_password (plain hashed : String) : Bool :=
  hashed == get_password_hash plain

/-- Modelled from the spec: BearerToken issuance (§3, §4.2), standing for
`create_access_token` in the absent `app/auth/auth.py`: a user token carries
claims sub, exp = now + lifetime, iat and iss, and no `service` claim, signed with
the configured secret. -/
def create_access_token (secret : String) (now : Int) (expires_minutes : Int)
    (sub : String) : Token :=
  jwtEncode ⟨sub, now + expires_minutes * 60, now, "employee-onboarding-api", none⟩ secret

/-- The single 401 of `login_for_access_token`, shared by the unknown-user
and wrong-password branches. -/
def incorrectCredentialsError : HTTPError :=
  ⟨401, "Incorrect username or password", [("WWW-Authenticate", "Bearer")]⟩

/-- The body of a successful `POST /token` response. -/
structure TokenOut where
  access_token : Token
  token_type : String
deriving Repr, DecidableEq

/-- Embeds `login_for_access_token` (`app/routers/auth.py`): look the username up;
`if not user or not verify_password(...)` raise the one shared 401;
otherwise return a bearer token for the username of the user. -/
def login_for_access_token (db : List Employee) (secret : String) (now : Int)
    (expires_minutes : Int) (username password : String) :
    Except HTTPError TokenOut :=
  match findUserByUsername db username with
  | none => .error incorrectCredentialsError
  | some user =>
    if verify_password password user.password_hash then
      .ok ⟨create_access_token secret now expires_minutes user.username, "bearer"⟩
    else
      .error incorrectCredentialsError

/-! ### Service token issuance (`get_service_token`) -/

/-- The payload built by `get_service_token`:
sub, exp = now+3600, service = True, iat = now, iss = employee-onboarding-api. -/
def service_token_payload (now : Int) (service_name : String) : Claims :=
  ⟨service_name, now + 3600, now, "employee-onboarding-api", some true⟩

/-- The body of a successful `POST /services/token` response. -/
structure ServiceTokenOut where
  access_token : Token
  token_type : String
  expires_in : Int
  service : String
deriving Repr, DecidableEq

/-- Embeds `get_service_token` (`app/routers/service_auth.py`), after API-key
authentication has produced `service_name`: sign the service payload and
return it with `expires_in = 3600`. -/
def get_service_token (secret : String) (now : Int) (service_name : String) :
    ServiceTokenOut :=
  ⟨jwtEncode (service_token_payload now service_name) secret, "bearer", 3600, service_name⟩

/-! ### Employee creation and role assignment (`create_employee`) -/

/-- The roles guarded by the privileged-role check in `create_employee`
(and granted salary/cross-edit rights elsewhere). -/
def privilegedRoles : List String := ["hr", "manager", "admin"]

/-- The 403 for an unauthorized attempt to register with a privileged role. -/
def forbiddenRoleError : HTTPError :=
  ⟨403, "Not authorized to assign privileged roles.", []⟩

/-- The role-assignment logic of `create_employee`: `assigned_role`
defaults to `"employee"`; when the requested role is in
`["hr", "manager", "admin"]` it is granted only to an authenticated actor
whose own role is `hr` or `admin`, and refused with 403 otherwise. -/
def assign_role (current_user : Option Employee) (requested_role : String) :
    Except HTTPError String :=
  if requested_role ∈ privilegedRoles then
    match current_user with
    | some actor =>
      if actor.role = "hr" ∨ actor.role = "admin" then .ok requested_role
      else .error forbiddenRoleError
    | none => .error forbiddenRoleError
  else
    .ok "employee"

/-- The request body of `POST /employees/` (`EmployeeCreate`). -/
structure EmployeeCreate where
  username : String
  password : String
  first_name : String
  last_name : String
  job_title : String
  department : String
  email : String
  phone : Option String
  role : String
deriving Repr, DecidableEq

/-- Embeds `create_employee` (`app/routers/employees.py`), with the generated uuid
passed in as `new_id`: reject a duplicate username with 400, run the
role-assignment logic, then insert the record with the hashed password and
the assigned role. -/
def create_employee (db : List Employee) (current_user : Option Employee)
    (employee : EmployeeCreate) (new_id : String) :
    Except HTTPError Employee × List Employee :=
  if db.any (fun e => e.username == employee.username) then
    (.error ⟨400, "Username already exists", []⟩, db)
  else
    match assign_role current_user employee.role with
    | .error e => (.error e, db)
    | .ok assigned_role =>
      let record : Employee :=
        ⟨new_id, employee.username, get_password_hash employee.password,
         employee.first_name, employee.last_name, employee.job_title,
         employee.department, employee.email, employee.phone, assigned_role, none⟩
      (.ok record, db ++ [record])

/-! ### Salary update (`update_salary`) -/

/-- The 403 of `update_salary` for non-hr/manager/admin actors. -/
def salaryForbiddenError : HTTPError :=
  ⟨403, "Not enough permissions to update salary", []⟩

/-- The store after the salary update query on the matching id:
the matching rows with their salary overwritten, every other row
untouched. -/
def salaryPatchMap (db : List Employee) (target : String) (salary : Int) :
    List Employee :=
  db.map (fun e => if e.id == target then { e with salary := some salary } else e)

/-- Embeds `update_salary` (`PUT` on the per-employee salary route): reject with 403
before touching the store unless the role of the actor is hr, manager or admin;
otherwise update the salary of the matching record and return it, 404 when
no record matches. -/
def update_salary (db : List Employee) (current_user : Employee)
    (employee_id : String) (salary : Int) :
    Except HTTPError Employee × List Employee :=
  if current_user.role ∈ privilegedRoles then
    let db' := salaryPatchMap db employee_id salary
    match db'.find? (fun e => e.id == employee_id) with
    | none => (.error ⟨404, "Employee not found or salary update failed", []⟩, db')
    | some e => (.ok e, db')
  else
    (.error salaryForbiddenError, db)

/-! ### Profile updates (`update_my_profile`, `admin_update_employee_profile`) -/

/-- Model `EmployeeUpdate` (`app/models/employee.py`): the six optional profile
fields; `none` models an unset field (excluded by
`model_dump(exclude_unset=True)`). -/
structure EmployeeUpdate where
  first_name : Option String
  last_name : Option String
  job_title : Option String
  department : Option String
  email : Option String
  phone : Option String
deriving Repr, DecidableEq

/-- Emptiness test `not update_data` after `model_dump(exclude_unset=True)`: no field set. -/
def EmployeeUpdate.isEmpty (u : EmployeeUpdate) : Bool :=
  u.first_name.isNone && u.last_name.isNone && u.job_title.isNone &&
  u.department.isNone && u.email.isNone && u.phone.isNone

/-- Applying the patch built from the set-fields of an `EmployeeUpdate` to a
stored record: each set field overwrites, each unset field is left alone;
no other column appears in the patch. -/
def applyEmployeeUpdate (e : Employee) (u : EmployeeUpdate) : Employee :=
  { e with
    first_name := u.first_name.getD e.first_name
    last_name := u.last_name.getD e.last_name
    job_title := u.job_title.getD e.job_title
    department := u.department.getD e.department
    email := u.email.getD e.email
    phone := match u.phone with | none => e.phone | some p => some p }

/-- The store after `update("employees", update_data).eq("id", target)`:
the matching rows with the patch applied, every other row untouched. -/
def profilePatchMap (db : List Employee) (target : String) (u : EmployeeUpdate) :
    List Employee :=
  db.map (fun e => if e.id == target then applyEmployeeUpdate e u else e)

/-- Embeds `update_my_profile` (`PUT /employees/me`): 400 on an empty patch, else
apply the patch to the record of the caller and return the updated row (404
when the row has vanished). -/
def update_my_profile (db : List Employee) (current_user : Employee)
    (u : EmployeeUpdate) : Except HTTPError Employee × List Employee :=
  if u.isEmpty then
    (.error ⟨400, "No update data provided", []⟩, db)
  else
    let db' := profilePatchMap db current_user.id u
    match db'.find? (fun e => e.id == current_user.id) with
    | none => (.error ⟨404, "Employee not found after update", []⟩, db')
    | some e => (.ok e, db')

/-- The 403 of `admin_update_employee_profile` for non-hr/manager/admin actors. -/
def adminUpdateForbiddenError : HTTPError :=
  ⟨403, "Not authorized for this action", []⟩

/-- Embeds `admin_update_employee_profile` (`PUT /employees/admin/...`): 403
unless the role of the actor is hr, manager or admin, then 400 on an empty patch,
else apply the patch to the target record. -/
def admin_update_employee_profile (db : List Employee) (current_user : Employee)
    (employee_id_to_update : String) (u : EmployeeUpdate) :
    Except HTTPError Employee × List Employee :=
  if current_user.role ∈ privilegedRoles then
    if u.isEmpty then
      (.error ⟨400, "No update data provided", []⟩, db)
    else
      let db' := profilePatchMap db employee_id_to_update u
      match db'.find? (fun e => e.id == employee_id_to_update) with
      | none => (.error ⟨404, "Employee not found after update", []⟩, db')
      | some e => (.ok e, db')
  else
    (.error adminUpdateForbiddenError, db)

/-! ### Helper lemmas -/

/-- Characterization of a successful decode: the token was signed with the
presented secret, is unexpired, and the returned claims are its claims. -/
theorem jwtDecode_ok_iff (t : Token) (secret : String) (now : Int) (c : Claims) :
    jwtDecode t secret now = .ok c ↔ t.sig = secret ∧ now < t.claims.exp ∧ c = t.claims := by
  unfold jwtDecode
  split_ifs with h1 h2
  · simp [h1]
  · simp only [not_not] at h1
    simp [h1, h2]
  · simp only [not_not] at h1
    simp only [not_le] at h2
    simp [h1, h2, eq_comm]

/-! ### C1 -/

/-- C1: `validate_service_token` is total (it returns an `Option`, every
decode failure mapping to `none`) and flag-gated: it returns `some c`
exactly when the token decodes to `c` under the configured secret before
expiry and `c` carries a truthy `service` claim; in particular a token
whose payload has no `service` key — a user bearer token — is never
accepted. -/
theorem validate_service_token_flag_gated (secret : String) (now : Int)
    (t : Token) (c : Claims) :
    (validate_service_token secret now t = some c ↔
      jwtDecode t secret now = .ok c ∧ c.service.getD false = true) ∧
    (t.claims.service = none → validate_service_token secret now t = none) := by
  constructor
  · unfold validate_service_token
    cases h : jwtDecode t secret now with
    | error e => simp
    | ok payload =>
      by_cases hs : payload.service.getD false = true
      · simp only [hs, if_true, Option.some.injEq, Except.ok.injEq]
        constructor
        · rintro rfl
          exact ⟨rfl, hs⟩
        · rintro ⟨rfl, _⟩
          rfl
      · simp only [hs, if_false, Bool.false_eq_true]
        constructor
        · intro hc
          exact absurd hc (by simp)
        · rintro ⟨hok, hflag⟩
          cases hok
          exact absurd hflag hs
  · intro hnone
    unfold validate_service_token
    cases h : jwtDecode t secret now with
    | error e => rfl
    | ok payload =>
      have hc := (jwtDecode_ok_iff t secret now payload).mp h
      rw [hc.2.2]
      simp [hnone]

/-- Instance of C1 at a concrete service token. -/
theorem validate_service_token_flag_gated_witness :
    validate_service_token "k" 0 ⟨⟨"svc", 10, 0, "iss", some true⟩, "k"⟩ =
      some ⟨"svc", 10, 0, "iss", some true⟩ :=
  (validate_service_token_flag_gated "k" 0 ⟨⟨"svc", 10, 0, "iss", some true⟩, "k"⟩
    ⟨"svc", 10, 0, "iss", some true⟩).1.mpr ⟨rfl, rfl⟩

/-! ### C2 -/

/-- Updating a key and reading it back. -/
theorem RateStore.update_self (st : RateStore) (k : String) (e : RateEntry) :
    st.update k e k = some e := by
  show (if k = k then some e else st k) = some e
  rw [if_pos rfl]

/-- A request under a key with no entry is allowed and seeds the counter. -/
theorem check_rate_limit_fresh (st : RateStore) (s ip : String) (now : Int)
    (h : st (rateKey s ip) = none) :
    check_rate_limit st s ip now =
      (true, st.update (rateKey s ip) ⟨1, now + RATE_LIMIT_WINDOW⟩) := by
  simp [check_rate_limit, h]

/-- A request inside the window increments the counter and is allowed iff
the new count stays within the limit. -/
theorem check_rate_limit_in_window (st : RateStore) (s ip : String) (now : Int)
    (c : Nat) (r : Int) (h : st (rateKey s ip) = some ⟨c, r⟩) (hw : now < r) :
    check_rate_limit st s ip now =
      (decide (c + 1 ≤ RATE_LIMIT_MAX), st.update (rateKey s ip) ⟨c + 1, r⟩) := by
  simp only [check_rate_limit, h]
  rw [if_neg (not_le.mpr hw)]

/-- A request at or after the reset time resets the counter to 1 and is
allowed. -/
theorem check_rate_limit_reset (st : RateStore) (s ip : String) (now : Int)
    (c : Nat) (r : Int) (h : st (rateKey s ip) = some ⟨c, r⟩) (hw : r ≤ now) :
    check_rate_limit st s ip now =
      (true, st.update (rateKey s ip) ⟨1, now + RATE_LIMIT_WINDOW⟩) := by
  simp only [check_rate_limit, h]
  rw [if_pos hw]

/-- Peeling one step off the expected verdict list. -/
theorem map_range_verdicts_succ (M c n : Nat) :
    (List.range (n + 1)).map (fun i => decide (c + i + 1 ≤ M)) =
      decide (c + 1 ≤ M) :: (List.range n).map (fun i => decide (c + 1 + i + 1 ≤ M)) := by
  rw [List.range_succ_eq_map, List.map_cons, List.map_map]
  refine congrArg₂ _ (by norm_num) ?_
  apply List.map_congr_left
  intro i _
  simp only [Function.comp_apply, decide_eq_decide]
  omega

/-- Starting from a window with count `c` and reset time `r`, a burst of
requests all earlier than `r` yields the verdicts
`decide (c+1 ≤ max), decide (c+2 ≤ max), ...`. -/
theorem runRequests_counts (s ip : String) (ts : List Int) :
    ∀ (st : RateStore) (c : Nat) (r : Int),
      st (rateKey s ip) = some ⟨c, r⟩ → (∀ t ∈ ts, t < r) →
      runRequests st s ip ts =
        (List.range ts.length).map (fun i => decide (c + i + 1 ≤ RATE_LIMIT_MAX)) := by
  induction ts with
  | nil => intro st c r _ _; rfl
  | cons t ts ih =>
    intro st c r hst hts
    simp only [runRequests]
    rw [check_rate_limit_in_window st s ip t c r hst (hts t (List.mem_cons_self t ts))]
    rw [ih (st.update (rateKey s ip) ⟨c + 1, r⟩) (c + 1) r
        (RateStore.update_self st (rateKey s ip) ⟨c + 1, r⟩)
        (fun t' ht' => hts t' (List.mem_cons_of_mem t ht'))]
    rw [List.length_cons, map_range_verdicts_succ]

/-- C2: per-(service, origin) rate limiting.  From an empty store, a burst
of requests inside one 60-second window is allowed exactly up to the 100th:
the i-th request (1-based) is allowed iff `i ≤ RATE_LIMIT_MAX`, so with
`N = RATE_LIMIT_MAX` the N+1-th is rejected.  Once the reset time has
elapsed the counter resets to 1 and the request is allowed.  The rejection
surfaced by `get_service_from_api_key` is a 429 carrying
`Retry-After: 60`, the window length. -/
theorem rate_limit_window_spec (s ip : String) (t0 : Int) (ts : List Int)
    (hts : ∀ t ∈ ts, t0 ≤ t ∧ t < t0 + RATE_LIMIT_WINDOW) :
    runRequests emptyRateStore s ip (t0 :: ts) =
      (List.range (ts.length + 1)).map (fun i => decide (i + 1 ≤ RATE_LIMIT_MAX)) ∧
    (∀ (st : RateStore) (c : Nat) (r now : Int),
        st (rateKey s ip) = some ⟨c, r⟩ → r ≤ now →
        check_rate_limit st s ip now =
          (true, st.update (rateKey s ip) ⟨1, now + RATE_LIMIT_WINDOW⟩)) ∧
    rateLimitedError = ⟨429, "Rate limit exceeded", [("Retry-After", "60")]⟩ ∧
    RATE_LIMIT_WINDOW = 60 ∧ RATE_LIMIT_MAX = 100 := by
  refine ⟨?_, fun st c r now hst hr => check_rate_limit_reset st s ip now c r hst hr,
    rfl, rfl, rfl⟩
  simp only [runRequests]
  rw [check_rate_limit_fresh emptyRateStore s ip t0 rfl]
  rw [runRequests_counts s ip ts _ 1 (t0 + RATE_LIMIT_WINDOW)
      (RateStore.update_self emptyRateStore (rateKey s ip) ⟨1, t0 + RATE_LIMIT_WINDOW⟩)
      (fun t ht => (hts t ht).2)]
  have h0 : (fun i : Nat => decide (i + 1 ≤ RATE_LIMIT_MAX)) =
      (fun i : Nat => decide (0 + i + 1 ≤ RATE_LIMIT_MAX)) := by
    funext i
    norm_num
  rw [h0, map_range_verdicts_succ]
  norm_num [RATE_LIMIT_MAX]

/-- Instance of C2: from an empty store, four requests inside one window are
all allowed. -/
theorem rate_limit_window_spec_witness :
    runRequests emptyRateStore "svc" "ip" [0, 1, 2, 3] = [true, true, true, true] := by
  have h := (rate_limit_window_spec "svc" "ip" 0 [1, 2, 3] (by decide)).1
  rw [h]
  decide

/-! ### C10 -/

/-- The registry scan returns a service name only when the configured key of that service is present, non-empty, and equal to the presented key. -/
theorem scanServiceKeys_ok_inv (keys : List (String × Option String))
    (api_key : String) (host : Option String) (name : String) :
    ∀ (st : RateStore) (now : Int),
      (scanServiceKeys keys api_key host st now).1 = .ok name →
      ∃ k : String, (name, some k) ∈ keys ∧ k ≠ "" ∧ api_key = k := by
  induction keys with
  | nil =>
    intro st now h
    simp [scanServiceKeys, invalidApiKeyError] at h
  | cons hd tl ih =>
    intro st now h
    obtain ⟨sname, vkey⟩ := hd
    simp only [scanServiceKeys] at h
    by_cases hc : (keyTruthy vkey && (api_key == vkey.getD "")) = true
    · rw [if_pos hc] at h
      simp only [Bool.and_eq_true, beq_iff_eq] at hc
      obtain ⟨htruthy, hkey⟩ := hc
      obtain ⟨k, hk⟩ : ∃ k, vkey = some k := by
        cases vkey with
        | none => simp [keyTruthy] at htruthy
        | some k => exact ⟨k, rfl⟩
      subst hk
      simp only [keyTruthy, bne_iff_ne, ne_eq] at htruthy
      have hname : sname = name := by
        cases host with
        | none => simpa using h
        | some hostv =>
          dsimp only at h
          by_cases hallow : (check_rate_limit st sname hostv now).1 = true
          · rw [if_pos hallow] at h
            simpa using h
          · rw [if_neg hallow] at h
            simp [rateLimitedError] at h
      subst hname
      exact ⟨k, List.mem_cons_self _ _, htruthy, by simpa using hkey⟩
    · rw [if_neg hc] at h
      obtain ⟨k, hmem, hk⟩ := ih st now h
      exact ⟨k, List.mem_cons_of_mem _ hmem, hk⟩

/-- C10: a service whose configured API key is unset (`None` or the empty
string, both falsy) can never be authenticated — for every presented key,
`get_service_from_api_key` never resolves to the name of that service. -/
theorem unset_api_key_never_authenticates (keys : List (String × Option String))
    (name : String) (h : ∀ p ∈ keys, p.1 = name → keyTruthy p.2 = false)
    (api_key : Option String) (host : Option String) (st : RateStore) (now : Int) :
    (get_service_from_api_key keys api_key host st now).1 ≠ .ok name := by
  intro hok
  cases api_key with
  | none => simp [get_service_from_api_key, missingApiKeyError] at hok
  | some k =>
    by_cases hempty : k = ""
    · simp [get_service_from_api_key, hempty, missingApiKeyError] at hok
    · rw [get_service_from_api_key, if_neg hempty] at hok
      obtain ⟨k', hmem, hne, _⟩ := scanServiceKeys_ok_inv keys k host name st now hok
      have := h (name, some k') hmem rfl
      simp [keyTruthy] at this
      exact hne this

/-- Instance of C10: a registry holding only an unset and an empty key
authenticates no presented key for those services. -/
theorem unset_api_key_never_authenticates_witness :
    (get_service_from_api_key [("analytics-service", none), ("employee-dashboard", some "")]
        (some "guess") none emptyRateStore 0).1 ≠ .ok "employee-dashboard" :=
  unset_api_key_never_authenticates
    [("analytics-service", none), ("employee-dashboard", some "")]
    "employee-dashboard" (by decide) (some "guess") none emptyRateStore 0

/-! ### C3 -/

/-- C3: `get_required_current_user` never yields an identity when the
`Authorization` header is absent, not of Bearer shape, carries a token that
does not decode (bad signature or expired), or carries a token whose subject
is unknown: every such request ends in an `HTTPException` with status 401
and a `WWW-Authenticate: Bearer` challenge. -/
theorem required_auth_always_rejects (db : List Employee) (secret : String)
    (now : Int) (h : AuthHeader)
    (hfail : h = .absent ∨ (∃ s, h = .malformed s) ∨
      (∃ t, h = .bearer t ∧ ∀ c, jwtDecode t secret now ≠ .ok c) ∨
      (∃ t c, h = .bearer t ∧ jwtDecode t secret now = .ok c ∧
        findUserByUsername db c.sub = none)) :
    ∃ e, get_required_current_user db secret now h = .error e ∧
      e.status = 401 ∧ ("WWW-Authenticate", "Bearer") ∈ e.headers := by
  rcases hfail with rfl | ⟨s, rfl⟩ | ⟨t, rfl, hdec⟩ | ⟨t, c, rfl, hdec, hfind⟩
  · exact ⟨notAuthenticatedError, rfl, rfl, by simp [notAuthenticatedError]⟩
  · exact ⟨notAuthenticatedError, rfl, rfl, by simp [notAuthenticatedError]⟩
  · refine ⟨credentialsError, ?_, rfl, by simp [credentialsError]⟩
    simp only [get_required_current_user, get_current_user]
    cases hd : jwtDecode t secret now with
    | error e => rfl
    | ok c => exact absurd hd (hdec c)
  · refine ⟨credentialsError, ?_, rfl, by simp [credentialsError]⟩
    simp only [get_required_current_user, get_current_user, hdec, hfind]

/-- Instance of C3 at an absent header. -/
theorem required_auth_always_rejects_witness :
    ∃ e, get_required_current_user [] "sec" 0 .absent = .error e ∧
      e.status = 401 ∧ ("WWW-Authenticate", "Bearer") ∈ e.headers :=
  required_auth_always_rejects [] "sec" 0 .absent (Or.inl rfl)

/-! ### C4 -/

/-- C4: `get_optional_current_user` is total (it returns an `Option`, every
exception from validation being swallowed) and yields an identity exactly
when the header is a well-formed Bearer header whose token resolves through
`get_current_user`; every other input — absent header, non-Bearer shape,
invalid or expired token, subject-lookup miss — degrades to `none`. -/
theorem optional_auth_total (db : List Employee) (secret : String) (now : Int)
    (h : AuthHeader) (u : Employee) :
    get_optional_current_user db secret now h = some u ↔
      ∃ t, h = .bearer t ∧ get_current_user db secret now t = .ok u := by
  cases h with
  | absent => simp [get_optional_current_user]
  | malformed s => simp [get_optional_current_user]
  | bearer t =>
    simp only [get_optional_current_user]
    cases hg : get_current_user db secret now t with
    | ok user => simp [hg]
    | error e => simp [hg]

/-- Instance of C4 at a concrete valid token and store. -/
theorem optional_auth_total_witness :
    get_optional_current_user
      [⟨"id1", "u", "h", "F", "L", "J", "D", "E", none, "employee", none⟩] "sec" 0
      (.bearer ⟨⟨"u", 10, 0, "iss", none⟩, "sec"⟩) =
      some ⟨"id1", "u", "h", "F", "L", "J", "D", "E", none, "employee", none⟩ :=
  (optional_auth_total
      [⟨"id1", "u", "h", "F", "L", "J", "D", "E", none, "employee", none⟩] "sec" 0
      (.bearer ⟨⟨"u", 10, 0, "iss", none⟩, "sec"⟩)
      ⟨"id1", "u", "h", "F", "L", "J", "D", "E", none, "employee", none⟩).mpr
    ⟨⟨⟨"u", 10, 0, "iss", none⟩, "sec"⟩, rfl, rfl⟩

/-! ### C5 -/

/-- C5 counterexample: a creation request for the non-default, non-privileged
role `"intern"` by an unauthenticated actor is NOT rejected with 403 — the
record is created, silently downgraded to the default role `"employee"`. -/
theorem create_employee_intern_counterexample :
    assign_role none "intern" = .ok "employee" ∧
    (create_employee [] none ⟨"u1", "pw", "F", "L", "J", "D", "E", none, "intern"⟩ "id-1").2 =
      [⟨"id-1", "u1", get_password_hash "pw", "F", "L", "J", "D", "E", none, "employee", none⟩] := by
  constructor
  · simp [assign_role, privilegedRoles]
  · simp [create_employee, assign_role, privilegedRoles]

/-- C5 amended: the requested role is granted as such iff it is the default
`"employee"` or it is a privileged role (hr/manager/admin) requested by an
authenticated actor whose own role is hr or admin; a privileged-role request
without such an actor is rejected with 403 and no record is inserted; a
request for any other role string is not rejected — the record is created
with the default role `"employee"`. -/
theorem assign_role_spec (cu : Option Employee) (r : String) (db : List Employee)
    (emp : EmployeeCreate) (new_id : String) :
    (assign_role cu r = .ok r ↔
      (r = "employee" ∨
        (r ∈ privilegedRoles ∧ ∃ u, cu = some u ∧ (u.role = "hr" ∨ u.role = "admin")))) ∧
    (r ∉ privilegedRoles → assign_role cu r = .ok "employee") ∧
    (emp.role ∈ privilegedRoles →
      (∀ u, cu = some u → u.role ≠ "hr" ∧ u.role ≠ "admin") →
      db.any (fun e => e.username == emp.username) = false →
      create_employee db cu emp new_id = (.error forbiddenRoleError, db)) := by
  have hassign : ∀ (role : String), role ∈ privilegedRoles →
      (∀ u, cu = some u → u.role ≠ "hr" ∧ u.role ≠ "admin") →
      assign_role cu role = .error forbiddenRoleError := by
    intro role hp hu
    unfold assign_role
    rw [if_pos hp]
    cases cu with
    | none => rfl
    | some actor =>
      have := hu actor rfl
      dsimp only
      rw [if_neg (by tauto)]
  refine ⟨?_, ?_, ?_⟩
  · by_cases hp : r ∈ privilegedRoles
    · have hne : r ≠ "employee" := by
        rintro rfl
        simp [privilegedRoles] at hp
      unfold assign_role
      rw [if_pos hp]
      cases cu with
      | none => simp [hne]
      | some actor =>
        dsimp only
        by_cases hrole : actor.role = "hr" ∨ actor.role = "admin"
        · rw [if_pos hrole]
          simp [hp, hrole]
        · rw [if_neg hrole]
          simp only [forbiddenRoleError]
          constructor
          · intro hc
            exact absurd hc (by simp)
          · rintro (rfl | ⟨_, u, hu, hur⟩)
            · exact absurd rfl hne
            · cases hu
              exact absurd hur hrole
    · unfold assign_role
      rw [if_neg hp]
      simp [hp, eq_comm]
  · intro hp
    unfold assign_role
    rw [if_neg hp]
  · intro hp hu hany
    unfold create_employee
    rw [hany]
    simp only [Bool.false_eq_true, if_false, hassign emp.role hp hu]

/-- Instance of the amended C5: a privileged-role request with no
authenticated actor is rejected and the store is untouched. -/
theorem assign_role_spec_witness :
    create_employee [] none ⟨"u1", "pw", "F", "L", "J", "D", "E", none, "hr"⟩ "id-1" =
      (.error forbiddenRoleError, []) :=
  (assign_role_spec none "hr" [] ⟨"u1", "pw", "F", "L", "J", "D", "E", none, "hr"⟩ "id-1").2.2
    (by simp [privilegedRoles]) (fun u hu => Option.noConfusion hu) rfl

/-! ### C6 -/

/-- C6: login failure is indistinguishable for an unknown username and a
wrong password — both yield exactly `.error incorrectCredentialsError`
(401, detail "Incorrect username or password",
`WWW-Authenticate: Bearer`), so the two failure responses are equal; a
known username with a matching password yields a 200 bearer token. -/
theorem login_no_username_enumeration (db : List Employee) (secret : String)
    (now m : Int) (u1 p1 u2 p2 : String) (rec : Employee)
    (h1 : findUserByUsername db u1 = none)
    (h2 : findUserByUsername db u2 = some rec)
    (h3 : verify_password p2 rec.password_hash = false) :
    login_for_access_token db secret now m u1 p1 = .error incorrectCredentialsError ∧
    login_for_access_token db secret now m u2 p2 = .error incorrectCredentialsError ∧
    login_for_access_token db secret now m u1 p1 =
      login_for_access_token db secret now m u2 p2 ∧
    (∀ u p r, findUserByUsername db u = some r →
      verify_password p r.password_hash = true →
      login_for_access_token db secret now m u p =
        .ok ⟨create_access_token secret now m r.username, "bearer"⟩) := by
  have ha : login_for_access_token db secret now m u1 p1 =
      .error incorrectCredentialsError := by
    simp [login_for_access_token, h1]
  have hb : login_for_access_token db secret now m u2 p2 =
      .error incorrectCredentialsError := by
    simp [login_for_access_token, h2, h3]
  exact ⟨ha, hb, ha.trans hb.symm,
    fun u p r hf hv => by simp [login_for_access_token, hf, hv]⟩

/-- Instance of C6: unknown username and wrong password give the identical
401 against a one-user store. -/
theorem login_no_username_enumeration_witness :
    login_for_access_token
        [⟨"id1", "alice", get_password_hash "pw", "F", "L", "J", "D", "E",
          none, "employee", none⟩] "sec" 0 30 "bob" "x" =
      .error incorrectCredentialsError ∧
    login_for_access_token
        [⟨"id1", "alice", get_password_hash "pw", "F", "L", "J", "D", "E",
          none, "employee", none⟩] "sec" 0 30 "alice" "wrong" =
      .error incorrectCredentialsError := by
  have h := login_no_username_enumeration
    [⟨"id1", "alice", get_password_hash "pw", "F", "L", "J", "D", "E",
      none, "employee", none⟩] "sec" 0 30 "bob" "x" "alice" "wrong"
    ⟨"id1", "alice", get_password_hash "pw", "F", "L", "J", "D", "E",
      none, "employee", none⟩ rfl rfl rfl
  exact ⟨h.1, h.2.1⟩

/-! ### C7 -/

/-- C7: the service-token round trip.  Verifying the token issued by
`get_service_token` before its 1-hour expiry returns the issued claims,
whose subject is the service name; a user bearer token — carrying no
`service` claim — always fails `validate_service_token`, under any secret
and at any time. -/
theorem service_token_round_trip (secret : String) (now t : Int) (name : String)
    (hbefore : t < now + 3600) :
    validate_service_token secret t (get_service_token secret now name).access_token =
      some (service_token_payload now name) ∧
    (service_token_payload now name).sub = name ∧
    (∀ (usecret : String) (unow m : Int) (sub : String) (vsecret : String) (vt : Int),
      validate_service_token vsecret vt (create_access_token usecret unow m sub) = none) := by
  refine ⟨?_, rfl, ?_⟩
  · have hdec : jwtDecode ⟨service_token_payload now name, secret⟩ secret t =
        .ok (service_token_payload now name) :=
      (jwtDecode_ok_iff _ _ _ _).mpr ⟨rfl, by simp [service_token_payload]; omega, rfl⟩
    simp only [validate_service_token, get_service_token, jwtEncode]
    rw [hdec]
    simp [service_token_payload]
  · intro usecret unow m sub vsecret vt
    unfold validate_service_token
    cases hdec : jwtDecode (create_access_token usecret unow m sub) vsecret vt with
    | error e => rfl
    | ok c =>
      have hc := (jwtDecode_ok_iff _ _ _ _).mp hdec
      rw [hc.2.2]
      simp [create_access_token, jwtEncode]

/-- Instance of C7 at a concrete service name and time. -/
theorem service_token_round_trip_witness :
    validate_service_token "s" 1 (get_service_token "s" 0 "x").access_token =
      some (service_token_payload 0 "x") :=
  (service_token_round_trip "s" 0 1 "x" (by decide)).1

/-! ### C8 -/

/-- C8: the salary update is permitted exactly for actors whose role is hr,
manager or admin — its outcome is the 403 `salaryForbiddenError` iff the
role of the actor is outside `privilegedRoles`, and in that case the store is
returned untouched: the rejection happens before any write. -/
theorem update_salary_role_gate (db : List Employee) (cu : Employee)
    (eid : String) (s : Int) :
    ((update_salary db cu eid s).1 = .error salaryForbiddenError ↔
      cu.role ∉ privilegedRoles) ∧
    (cu.role ∉ privilegedRoles →
      update_salary db cu eid s = (.error salaryForbiddenError, db)) := by
  by_cases hr : cu.role ∈ privilegedRoles
  · refine ⟨?_, fun hnp => absurd hr hnp⟩
    simp only [update_salary, if_pos hr]
    cases hf : (salaryPatchMap db eid s).find? (fun e => e.id == eid) with
    | none => simp [hf, hr, salaryForbiddenError]
    | some e => simp [hf, hr]
  · have hout : update_salary db cu eid s = (.error salaryForbiddenError, db) := by
      simp [update_salary, hr]
    exact ⟨by rw [hout]; simpa using hr, fun _ => hout⟩

/-- Instance of C8: an actor with role `"employee"` is rejected with 403 and
the store is unchanged. -/
theorem update_salary_role_gate_witness :
    update_salary [] ⟨"id1", "u", "h", "F", "L", "J", "D", "E", none, "employee", none⟩
        "id2" 5 =
      (.error salaryForbiddenError, []) :=
  (update_salary_role_gate [] ⟨"id1", "u", "h", "F", "L", "J", "D", "E", none,
      "employee", none⟩ "id2" 5).2 (by simp [privilegedRoles])

/-! ### C9 -/

/-- The fields outside `EmployeeUpdate` that the profile patch must not
touch: role, salary, username and password hash. -/
def preservesProtected (e e' : Employee) : Prop :=
  e'.role = e.role ∧ e'.salary = e.salary ∧ e'.username = e.username ∧
  e'.password_hash = e.password_hash

/-- Mapping a per-record function that preserves the protected fields
preserves them across the whole store. -/
theorem forall₂_preserves_map (db : List Employee) (f : Employee → Employee)
    (hf : ∀ e, preservesProtected e (f e)) :
    List.Forall₂ preservesProtected db (db.map f) := by
  induction db with
  | nil => exact List.Forall₂.nil
  | cons e es ih => exact List.Forall₂.cons (hf e) ih

/-- The untouched store preserves the protected fields. -/
theorem forall₂_preserves_refl (db : List Employee) :
    List.Forall₂ preservesProtected db db := by
  induction db with
  | nil => exact List.Forall₂.nil
  | cons e es ih => exact List.Forall₂.cons ⟨rfl, rfl, rfl, rfl⟩ ih

/-- The profile patch map touches none of the protected fields. -/
theorem profilePatchMap_preserves (db : List Employee) (target : String)
    (u : EmployeeUpdate) :
    List.Forall₂ preservesProtected db (profilePatchMap db target u) := by
  refine forall₂_preserves_map db _ (fun e => ?_)
  by_cases hid : (e.id == target) = true
  · simp only [hid, if_true]
    exact ⟨rfl, rfl, rfl, rfl⟩
  · simp only [hid, if_false, Bool.false_eq_true]
    exact ⟨rfl, rfl, rfl, rfl⟩

/-- C9: both profile-update operations build their store patch from the
set-fields of `EmployeeUpdate` only, so on every record of the resulting
store — whichever branch is taken — `role`, `salary`, `username` and
`password_hash` are unchanged. -/
theorem profile_updates_frame (db : List Employee) (cu : Employee)
    (u : EmployeeUpdate) (eid : String) :
    List.Forall₂ preservesProtected db (update_my_profile db cu u).2 ∧
    List.Forall₂ preservesProtected db
      (admin_update_employee_profile db cu eid u).2 := by
  constructor
  · unfold update_my_profile
    by_cases he : u.isEmpty = true
    · simp only [he, if_true]
      exact forall₂_preserves_refl db
    · simp only [he, Bool.false_eq_true, if_false]
      cases hf : (profilePatchMap db cu.id u).find? (fun e => e.id == cu.id) with
      | none => simp only [hf]; exact profilePatchMap_preserves db cu.id u
      | some e => simp only [hf]; exact profilePatchMap_preserves db cu.id u
  · unfold admin_update_employee_profile
    by_cases hrole : cu.role ∈ privilegedRoles
    · simp only [hrole, if_true]
      by_cases he : u.isEmpty = true
      · simp only [he, if_true]
        exact forall₂_preserves_refl db
      · simp only [he, Bool.false_eq_true, if_false]
        cases hf : (profilePatchMap db eid u).find? (fun e => e.id == eid) with
        | none => simp only [hf]; exact profilePatchMap_preserves db eid u
        | some e => simp only [hf]; exact profilePatchMap_preserves db eid u
    · simp only [hrole, if_false]
      exact forall₂_preserves_refl db

end Miq
